import Mathlib

/-!
Verification of the gpsd PPS monitor (`src/ppsthread.c`) against its
natural-language specification.

The development shallow-embeds the worker `gpsd_ppsmonitor`, the timespec
arithmetic kernel (`TS_NORM`, `TS_SUB`), the edge classifier, the fix-time
correlator/publisher, the kernel-PPS initialisation `init_kernel_pps`, and
the worker teardown sequence.  Machine integers are modelled as unbounded
`Int` except where C truncation matters (`cycle`/`duration` are C `int`s,
modelled with an explicit wrap to 32 bits; C integer division truncates
toward zero, modelled with `Int.tdiv`).
-/

namespace Gpsd

/-- C `struct timespec`: `tv_sec` is `time_t` (64-bit signed), `tv_nsec` is
`long`.  Both are modelled as unbounded `Int`; no claim exercises 64-bit
overflow. -/
structure Timespec where
  tv_sec : Int
  tv_nsec : Int
  deriving Repr, DecidableEq

/-- Function `TS_NORM` from `src/ppsthread.c` lines 97-123: normalize a timespec by
applying at most one nanosecond borrow/carry, with the branch on the sign
of the value taken verbatim from the source. -/
def TS_NORM (ts : Timespec) : Timespec :=
  if 1 ≤ ts.tv_sec ∨ (0 = ts.tv_sec ∧ 0 ≤ ts.tv_nsec) then
    -- result is positive
    if 1000000000 ≤ ts.tv_nsec then
      -- borrow from tv_sec
      { tv_sec := ts.tv_sec + 1, tv_nsec := ts.tv_nsec - 1000000000 }
    else if 0 > ts.tv_nsec then
      -- carry to tv_sec
      { tv_sec := ts.tv_sec - 1, tv_nsec := ts.tv_nsec + 1000000000 }
    else ts
  else
    -- result is negative
    if ts.tv_nsec ≤ -1000000000 then
      -- carry to tv_sec
      { tv_sec := ts.tv_sec - 1, tv_nsec := ts.tv_nsec + 1000000000 }
    else if 0 < ts.tv_nsec then
      -- borrow from tv_sec
      { tv_sec := ts.tv_sec + 1, tv_nsec := ts.tv_nsec - 1000000000 }
    else ts

/-- Macro `TS_SUB` from `src/ppsthread.c` lines 127-132: field-wise subtraction
followed by `TS_NORM`. -/
def TS_SUB (ts1 ts2 : Timespec) : Timespec :=
  TS_NORM { tv_sec := ts1.tv_sec - ts2.tv_sec, tv_nsec := ts1.tv_nsec - ts2.tv_nsec }

/-- Modelled from the spec: `timespec_diff_ns` lives in `timespec_str.h`,
which is not under `src/`; spec §4.1 defines
`diff_ns(a, b) = (a.sec − b.sec) × 10⁹ + (a.nsec − b.nsec)` as an `int64`. -/
def timespec_diff_ns (a b : Timespec) : Int :=
  (a.tv_sec - b.tv_sec) * 1000000000 + (a.tv_nsec - b.tv_nsec)

/-- Conversion of a mathematical integer to a C 32-bit `int`
(two's-complement wrap), used where the source assigns a `long`
expression to an `int` variable. -/
def to_int32 (x : Int) : Int :=
  Int.emod (x + 2147483648) 4294967296 - 2147483648

/-- The sign rules of spec §3 for a normalized timespec: positive seconds
force `0 ≤ nsec < 10⁹`, negative seconds force `−10⁹ < nsec ≤ 0`, and zero
seconds leave the sign of `nsec` free. -/
def sign_rules (ts : Timespec) : Prop :=
  (0 < ts.tv_sec → 0 ≤ ts.tv_nsec ∧ ts.tv_nsec < 1000000000) ∧
  (ts.tv_sec < 0 → -1000000000 < ts.tv_nsec ∧ ts.tv_nsec ≤ 0)

instance (ts : Timespec) : Decidable (sign_rules ts) := by
  unfold sign_rules; infer_instance

/-- Full normalization: the sign rules together with `|tv_nsec| < 10⁹`,
which is exactly the fixpoint condition of `TS_NORM`. -/
def full_norm (ts : Timespec) : Prop :=
  sign_rules ts ∧ -1000000000 < ts.tv_nsec ∧ ts.tv_nsec < 1000000000

instance (ts : Timespec) : Decidable (full_norm ts) := by
  unfold full_norm; infer_instance

theorem TS_NORM_fixpoint (ts : Timespec) (h : full_norm ts) : TS_NORM ts = ts := by
  obtain ⟨s, n⟩ := ts
  obtain ⟨⟨h1, h2⟩, h3, h4⟩ := h
  simp only [TS_NORM]
  split_ifs <;> first | rfl | (exfalso; dsimp only at *; omega)

/-- On inputs reachable as a single sum or difference of normalized values
(`|nsec| < 2·10⁹` and no second borrow/carry pending), `TS_NORM` fully
normalizes. -/
theorem TS_NORM_in_domain (ts : Timespec)
    (h1 : -2000000000 < ts.tv_nsec) (h2 : ts.tv_nsec < 2000000000)
    (h3 : ¬ (2 ≤ ts.tv_sec ∧ ts.tv_nsec < -1000000000))
    (h4 : ¬ (ts.tv_sec ≤ -2 ∧ 1000000000 < ts.tv_nsec)) :
    full_norm (TS_NORM ts) := by
  obtain ⟨s, n⟩ := ts
  simp only [TS_NORM, full_norm, sign_rules]
  split_ifs <;> dsimp only at * <;> omega

/-- Type `struct timedelta_t`: `real` is the inferred true UTC instant of the
pulse, `clock` the host realtime clock reading at capture. -/
structure TimeDelta where
  real : Timespec
  clock : Timespec
  deriving Repr, DecidableEq

/-- Type `pps_info_t` as consumed by `gpsd_ppsmonitor`: the most recent
assert/clear timestamp pair returned by `time_pps_fetch`. -/
structure PpsInfo where
  assert_timestamp : Timespec
  clear_timestamp : Timespec
  deriving Repr, DecidableEq

/-- The locals of `gpsd_ppsmonitor` that carry information from one loop
iteration to the next, together with the guarded output fields of the
thread context (`ppsout_last`, `ppsout_count`).  `state`, `edge`,
`clock_ts`, `cycle`, `duration`, `ok`, `log`, `ok_kpps`, `edge_kpps`,
`ts_kpps` and `pi` are reassigned before any use in each iteration and are
therefore per-iteration values, not state. -/
structure PPSState where
  /-- previous masked modem-line bitmap (`state_last`) -/
  state_last : Nat
  /-- consecutive out-of-band unchanged-state wakeups (`unchanged`), a C
  `int` that the code only ever sets to 0, 1 or increments -/
  unchanged : Int
  /-- array `pulse[2]`: last edge timestamp per polarity (clear, assert) -/
  pulse : Timespec × Timespec
  /-- array `pulse_kpps[2]`: same for the kernel capture path -/
  pulse_kpps : Timespec × Timespec
  /-- field `last_second_used`: fix second of the last publication -/
  last_second_used : Int
  /-- field `thread_context->ppsout_last` -/
  ppsout_last : TimeDelta
  /-- field `thread_context->ppsout_count` -/
  ppsout_count : Int
  deriving Repr, DecidableEq

/-- One TIOCMIWAIT wakeup: the data the worker reads at the top of an
iteration.  `fixin_real`/`fixin_clock` are the mutex-guarded copies taken
at lines 398-399; `clock_ts` is the `clock_gettime` result; `state` the
raw TIOCMGET bitmap; `kpps_fetch` the `time_pps_fetch` result (`none` =
fetch failed), consulted only when a kernel handle exists. -/
structure Wakeup where
  fixin_real : Timespec
  fixin_clock : Timespec
  clock_ts : Timespec
  state : Nat
  kpps_fetch : Option PpsInfo
  deriving Repr, DecidableEq

/-- Mask `PPS_LINE_TIOC = TIOCM_CD | TIOCM_CAR | TIOCM_RI | TIOCM_CTS`; with the
Linux header values 0x040, 0x040, 0x080, 0x020 this is 0xE0. -/
def PPS_LINE_TIOC : Nat := 224

/-- Read `pulse[e]` (index 0 = clear, 1 = assert). -/
def pulse_get (p : Timespec × Timespec) (e : Nat) : Timespec :=
  if e = 0 then p.1 else p.2

/-- Write `pulse[e] = v`. -/
def pulse_set (p : Timespec × Timespec) (e : Nat) (v : Timespec) :
    Timespec × Timespec :=
  if e = 0 then (v, p.2) else (p.1, v)

/-- Lines 489-501: pick the newer of the assert/clear timestamps
(seconds first, then nanoseconds); the winner's polarity is `edge_kpps`
and its timestamp `ts_kpps`. -/
def kpps_select (pi : PpsInfo) : Nat × Timespec :=
  if pi.assert_timestamp.tv_sec > pi.clear_timestamp.tv_sec then
    (1, pi.assert_timestamp)
  else if pi.assert_timestamp.tv_sec < pi.clear_timestamp.tv_sec then
    (0, pi.clear_timestamp)
  else if pi.assert_timestamp.tv_nsec > pi.clear_timestamp.tv_nsec then
    (1, pi.assert_timestamp)
  else
    (0, pi.clear_timestamp)

/-- Lines 456-535, the KPPS block: run only when `0 ≤ kernelpps_handle`.
Returns the updated `pulse_kpps` pair and, when the basic sanity check
`990000 < cycle_kpps < 1010000` passes (`ok_kpps`), the kernel timestamp
that the accept block would substitute for `clock_ts` (lines 682-692:
`pi.assert_timestamp` when `edge_kpps`, else `pi.clear_timestamp`, which
is exactly `ts_kpps`). -/
def kpps_block (handle : Int) (kpulse : Timespec × Timespec)
    (fetch : Option PpsInfo) : (Timespec × Timespec) × Option Timespec :=
  if handle < 0 then (kpulse, none)
  else
    match fetch with
    | none => (kpulse, none)  -- "KPPS kernel PPS failed", ok_kpps stays false
    | some pi =>
      let sel := kpps_select pi
      let cycle_kpps := to_int32 (Int.tdiv (timespec_diff_ns sel.2 (pulse_get kpulse sel.1)) 1000)
      let kpulse' := pulse_set kpulse sel.1 sel.2
      if 990000 < cycle_kpps ∧ cycle_kpps < 1010000 then
        (kpulse', some sel.2)
      else
        (kpulse', none)

/-- Lines 601-658: the edge classifier.  Given `cycle` and `duration` in
microseconds and the edge polarity, produce `(ok, log)` exactly as the
cascade of window tests does; `log` keeps its initial value
"Unknown error" in branches that set neither. -/
def classify (cycle duration : Int) (edge : Nat) : Bool × String :=
  if 0 > cycle then (false, "Rejecting negative cycle\n")
  else if 199000 > cycle then (false, "Too short for 5Hz\n")
  else if 201000 > cycle then
    if 100000 > duration then (true, "5Hz PPS pulse\n")
    else (false, "Unknown error")
  else if 900000 > cycle then (false, "Too long for 5Hz, too short for 1Hz\n")
  else if 1100000 > cycle then
    if 0 = duration then (true, "invisible pulse\n")
    else if 499000 > duration then (false, "1Hz trailing edge\n")
    else if 501000 > duration then
      if edge = 1 then (true, "square\n")
      else (false, "Unknown error")
    else (true, "1Hz leading edge\n")
  else if 1999000 > cycle then (false, "Too long for 1Hz, too short for 2Hz\n")
  else if 2001000 > cycle then
    if 999000 > duration then (false, "0.5 Hz square too short duration\n")
    else if 1001000 > duration then (true, "0.5 Hz square wave\n")
    else (false, "0.5 Hz square too long duration\n")
  else (false, "Too long for 0.5Hz\n")

/-- What one loop iteration of `gpsd_ppsmonitor` does, beyond updating the
state.  `earlyNoFix` is the `continue` at line 444 (no valid in-band time
yet); `skipUnchanged` the `continue` at line 573; `rejectedEdge` the
"PPS edge rejected" path; `rejectClockBack` / `rejectRange` the two sanity
rejections of the accept block; `published` the hook-invoking publication
of a `timedelta_t`. -/
inductive Outcome where
  | earlyNoFix : Outcome
  | skipUnchanged : Outcome
  | rejectedEdge : String → Outcome
  | rejectClockBack : Outcome
  | rejectRange : Outcome
  | published : TimeDelta → Outcome
  deriving Repr, DecidableEq

/-- Lines 666-786, the accept block for an edge that passed classification
and dedup: build `ppstimes` (the `+ 1` of line 709 and the zeroed
nanoseconds of line 710), compute `delay = ppstimes.clock − fixin_clock`,
apply the two sanity checks exactly as written (lines 722 and 727-728),
and on success set `last_second_used`, store `ppsout_last` and bump
`ppsout_count` (lines 736-755).  `offset` (line 717) is only formatted
into a log message and is not modelled. -/
def correlate (st : PPSState) (fixin_real fixin_clock chosen_clock : Timespec) :
    PPSState × Outcome :=
  let ppstimes : TimeDelta :=
    { real := { tv_sec := fixin_real.tv_sec + 1, tv_nsec := 0 }
      clock := chosen_clock }
  let delay := TS_SUB ppstimes.clock fixin_clock
  if 0 > delay.tv_sec ∨ 0 > delay.tv_nsec then
    (st, Outcome.rejectClockBack)   -- "system clock went backwards"
  else if 2 < delay.tv_sec ∨ (1 = delay.tv_sec ∧ 100000000 > delay.tv_nsec) then
    (st, Outcome.rejectRange)       -- "timestamp out of range"
  else
    ({ st with
        last_second_used := fixin_real.tv_sec
        ppsout_last := ppstimes
        ppsout_count := st.ppsout_count + 1 },
     Outcome.published ppstimes)

/-- Lines 660-786: dedup gate and dispatch on the classifier verdict.
`kpps_clock = some ts` models `0 ≤ kernelpps_handle && ok_kpps`, in which
case the kernel timestamp replaces `clock_ts` (lines 682-692). -/
def edge_decide (st : PPSState) (w : Wakeup) (cycle duration : Int)
    (edge : Nat) (kpps_clock : Option Timespec) : PPSState × Outcome :=
  let c := classify cycle duration edge
  if c.1 ∧ st.last_second_used ≥ w.fixin_real.tv_sec then
    (st, Outcome.rejectedEdge "this second already handled\n")
  else if c.1 then
    correlate st w.fixin_real w.fixin_clock (kpps_clock.getD w.clock_ts)
  else
    (st, Outcome.rejectedEdge c.2)

/-- Lines 543-563, the stuck-state handling: returns the possibly zeroed
`duration` and the new `unchanged` counter.  When `state == state_last`
and the cycle is a plausible 1 Hz period the pulse was merely invisible
(`duration = 0`, counter reset); otherwise the counter is incremented,
wrapping from 10 back to 1 after the warning and 10 s sleep. -/
def stuck_update (st : PPSState) (cycle duration : Int) (state : Nat) :
    Int × Int :=
  if state = st.state_last then
    if 999000 < cycle ∧ cycle < 1001000 then (0, 0)
    else if st.unchanged + 1 = 10 then (duration, 1)  -- warn and sleep 10 s
    else (duration, st.unchanged + 1)
  else (duration, 0)

/-- Lines 571-786: after `state_last` and `pulse[edge]` were updated, a
nonzero `unchanged` counter skips the iteration (line 573's `continue`);
otherwise the edge goes to the classifier and on to the publisher. -/
def post_skip (st1 : PPSState) (w : Wakeup) (cycle duration : Int)
    (edge : Nat) (kpps_clock : Option Timespec) (unch : Int) :
    PPSState × Outcome :=
  if unch ≠ 0 then (st1, Outcome.skipUnchanged)
  else edge_decide st1 w cycle duration edge kpps_clock

/-- Lines 447-786: the body of one iteration once a valid in-band fix time
is known.  `state` is masked (line 447), the edge polarity derived
(line 448), the kernel path consulted, `cycle`/`duration` computed as C
`int`s (lines 540-541), the stuck-state logic applied, `state_last` and
`pulse[edge]` updated (lines 564-566), and the edge classified and
published. -/
def gpsd_ppsmonitor_body (handle : Int) (st : PPSState) (w : Wakeup) :
    PPSState × Outcome :=
  let state := Nat.land w.state PPS_LINE_TIOC
  let edge : Nat := if state > st.state_last then 1 else 0
  let kb := kpps_block handle st.pulse_kpps w.kpps_fetch
  let cycle := to_int32 (Int.tdiv (timespec_diff_ns w.clock_ts (pulse_get st.pulse edge)) 1000)
  let duration := to_int32 (Int.tdiv (timespec_diff_ns w.clock_ts (pulse_get st.pulse (if edge = 0 then 1 else 0))) 1000)
  let du := stuck_update st cycle duration state
  let st1 : PPSState :=
    { st with
        state_last := state
        pulse := pulse_set st.pulse edge w.clock_ts
        pulse_kpps := kb.1
        unchanged := du.2 }
  post_skip st1 w cycle du.1 edge kb.2 du.2

/-- One iteration of the `gpsd_ppsmonitor` worker loop (lines 361-787)
after a successful TIOCMIWAIT wakeup, fix-time copy-out, clock read and
TIOCMGET.  Fatal I/O failures `break` the loop and are modelled by the
wakeup sequence ending.  Line 443: with no valid in-band time stashed yet
the iteration is abandoned before anything else happens. -/
def gpsd_ppsmonitor_step (handle : Int) (st : PPSState) (w : Wakeup) :
    PPSState × Outcome :=
  if w.fixin_real.tv_sec = 0 then (st, Outcome.earlyNoFix)
  else gpsd_ppsmonitor_body handle st w

/-- Iterate `gpsd_ppsmonitor_step` over a finite wakeup sequence,
collecting the published `timedelta_t`s in order. -/
def gpsd_ppsmonitor_run (handle : Int) (st : PPSState) :
    List Wakeup → PPSState × List TimeDelta
  | [] => (st, [])
  | w :: ws =>
    let so := gpsd_ppsmonitor_step handle st w
    let rest := gpsd_ppsmonitor_run handle so.1 ws
    match so.2 with
    | Outcome.published t => (rest.1, t :: rest.2)
    | _ => rest

/-- Externally visible actions of the worker's exit sequence
(lines 788-799). -/
inductive ExitEvent where
  | destroyHandle : Int → ExitEvent   -- time_pps_destroy(kernelpps_handle)
  | wrapCall : ExitEvent              -- wrap_hook(thread_context)
  deriving Repr, DecidableEq

/-- Lines 788-799: after the worker loop ends, the kernel handle is
destroyed when `kernelpps_handle > 0` (line 789), then the wrap hook runs
when non-null (line 795). -/
def monitor_exit (handle : Int) (has_wrap : Bool) : List ExitEvent :=
  (if handle > 0 then [ExitEvent.destroyHandle handle] else []) ++
  (if has_wrap then [ExitEvent.wrapCall] else [])

/-- Externally visible actions of `init_kernel_pps` (setup side). -/
inductive KppsOp where
  | setLdisc : KppsOp       -- ioctl(devicefd, TIOCSETD, &ldisc), line 183
  | openPps : KppsOp        -- open(path, O_RDWR), line 244
  | createHandle : KppsOp   -- time_pps_create, line 267
  | setParams : KppsOp      -- time_pps_setparams, line 298
  | destroyHandle : KppsOp  -- time_pps_destroy, line 303
  deriving Repr, DecidableEq

/-- Environment of one `init_kernel_pps` call on Linux: the results the
surrounding system would give each probe.  `sysfs` lists the glob matches
of `/sys/devices/virtual/pps/pps?/path` as pairs of the device digit
(`gl_pathv[i][28]`) and the file's contents; `created_handle` is the value
`time_pps_create` would store into `kernelpps_handle`. -/
structure KppsEnv where
  is_tty : Bool
  devicename : List Char
  uid : Nat
  ldisc_ok : Bool
  sysfs : List (Char × List Char)
  open_ok : Bool
  create_ok : Bool
  created_handle : Int
  setparams_ok : Bool
  deriving Repr, DecidableEq

/-- Result of `init_kernel_pps`: the `int` return value, the final
`pps_thread->kernelpps_handle`, and the actions performed. -/
structure KppsResult where
  ret : Int
  kernelpps_handle : Int
  ops : List KppsOp
  deriving Repr, DecidableEq

/-- Lines 206-225: scan the sysfs PPS nodes for the one whose `path`
attribute equals the device name; yield its device digit, or `'\0'`
(line 151's initial value) when none matches. -/
def find_pps_num (entries : List (Char × List Char)) (name : List Char) : Char :=
  match entries with
  | [] => Char.ofNat 0
  | e :: rest => if e.2 = name then e.1 else find_pps_num rest name

/-- Lines 238-307, the tail of `init_kernel_pps` common to both Linux
path-construction branches: the root check guarding the device open
(lines 239-243), the open itself, `time_pps_create` (which stores the
handle), the capability query (diagnostic only, not modelled) and
`time_pps_setparams`, whose failure destroys the handle and returns −1
while `kernelpps_handle` keeps the created value. -/
def init_kernel_pps_tail (env : KppsEnv) (ops : List KppsOp) : KppsResult :=
  if env.uid ≠ 0 then { ret := -1, kernelpps_handle := -1, ops := ops }
  else if ¬ env.open_ok then
    { ret := -1, kernelpps_handle := -1, ops := ops ++ [KppsOp.openPps] }
  else if ¬ env.create_ok then
    { ret := -1, kernelpps_handle := -1,
      ops := ops ++ [KppsOp.openPps, KppsOp.createHandle] }
  else if ¬ env.setparams_ok then
    { ret := -1, kernelpps_handle := env.created_handle,
      ops := ops ++ [KppsOp.openPps, KppsOp.createHandle, KppsOp.setParams,
                     KppsOp.destroyHandle] }
  else
    { ret := 0, kernelpps_handle := env.created_handle,
      ops := ops ++ [KppsOp.openPps, KppsOp.createHandle, KppsOp.setParams] }

/-- Function `init_kernel_pps` (lines 139-308) on `__linux__`: reject non-ttys
(line 156); a device name beginning with `/dev/pps` is used directly
(line 171); otherwise the PPS line discipline is attached (line 183,
failure returns −1) and the matching `/dev/ppsN` searched for in sysfs
(lines 202-235, no match returns −1). -/
def init_kernel_pps (env : KppsEnv) : KppsResult :=
  if ¬ env.is_tty then { ret := -1, kernelpps_handle := -1, ops := [] }
  else if env.devicename.take 8 = ['/', 'd', 'e', 'v', '/', 'p', 'p', 's'] then
    init_kernel_pps_tail env []
  else if ¬ env.ldisc_ok then
    { ret := -1, kernelpps_handle := -1, ops := [KppsOp.setLdisc] }
  else if find_pps_num env.sysfs env.devicename = Char.ofNat 0 then
    { ret := -1, kernelpps_handle := -1, ops := [KppsOp.setLdisc] }
  else
    init_kernel_pps_tail env [KppsOp.setLdisc]

/-! Characterization lemmas: every path through one iteration either
leaves the publication state (`last_second_used`, `ppsout_last`,
`ppsout_count`) untouched and publishes nothing, or publishes exactly one
`timedelta_t` built from the copied fix. -/

theorem correlate_spec (st : PPSState) (fr fc ch : Timespec) :
    ((correlate st fr fc ch).1 = st ∧
      ∀ t, (correlate st fr fc ch).2 ≠ Outcome.published t) ∨
    (correlate st fr fc ch =
      ({ st with
          last_second_used := fr.tv_sec
          ppsout_last := { real := { tv_sec := fr.tv_sec + 1, tv_nsec := 0 }, clock := ch }
          ppsout_count := st.ppsout_count + 1 },
        Outcome.published { real := { tv_sec := fr.tv_sec + 1, tv_nsec := 0 }, clock := ch })) := by
  simp only [correlate]
  split_ifs <;> simp

theorem edge_decide_spec (st : PPSState) (w : Wakeup) (cyc dur : Int)
    (e : Nat) (kc : Option Timespec) :
    ((edge_decide st w cyc dur e kc).1 = st ∧
      ∀ t, (edge_decide st w cyc dur e kc).2 ≠ Outcome.published t) ∨
    (st.last_second_used < w.fixin_real.tv_sec ∧
      edge_decide st w cyc dur e kc =
      ({ st with
          last_second_used := w.fixin_real.tv_sec
          ppsout_last := { real := { tv_sec := w.fixin_real.tv_sec + 1, tv_nsec := 0 },
                           clock := kc.getD w.clock_ts }
          ppsout_count := st.ppsout_count + 1 },
        Outcome.published { real := { tv_sec := w.fixin_real.tv_sec + 1, tv_nsec := 0 },
                            clock := kc.getD w.clock_ts })) := by
  simp only [edge_decide]
  split_ifs with h1 h2
  · left; simp
  · rcases correlate_spec st w.fixin_real w.fixin_clock (kc.getD w.clock_ts) with h | h
    · left; exact h
    · right
      refine ⟨?_, h⟩
      push_neg at h1
      exact h1 h2
  · left; simp

theorem post_skip_spec (st st1 : PPSState) (w : Wakeup) (cyc dur : Int)
    (e : Nat) (kc : Option Timespec) (u : Int)
    (hf : st1.last_second_used = st.last_second_used ∧
          st1.ppsout_last = st.ppsout_last ∧
          st1.ppsout_count = st.ppsout_count) :
    (((post_skip st1 w cyc dur e kc u).1.last_second_used = st.last_second_used ∧
      (post_skip st1 w cyc dur e kc u).1.ppsout_last = st.ppsout_last ∧
      (post_skip st1 w cyc dur e kc u).1.ppsout_count = st.ppsout_count) ∧
     ∀ t, (post_skip st1 w cyc dur e kc u).2 ≠ Outcome.published t) ∨
    (∃ t, (post_skip st1 w cyc dur e kc u).2 = Outcome.published t ∧
        t.real.tv_sec = w.fixin_real.tv_sec + 1 ∧ t.real.tv_nsec = 0 ∧
        (post_skip st1 w cyc dur e kc u).1.last_second_used = w.fixin_real.tv_sec ∧
        (post_skip st1 w cyc dur e kc u).1.ppsout_last = t ∧
        (post_skip st1 w cyc dur e kc u).1.ppsout_count = st.ppsout_count + 1 ∧
        st.last_second_used < w.fixin_real.tv_sec) := by
  obtain ⟨hf1, hf2, hf3⟩ := hf
  simp only [post_skip]
  split_ifs with hu
  · left; exact ⟨⟨hf1, hf2, hf3⟩, by simp⟩
  · rcases edge_decide_spec st1 w cyc dur e kc with ⟨ha, hb⟩ | ⟨hlt, heq⟩
    · left; exact ⟨⟨by rw [ha, hf1], by rw [ha, hf2], by rw [ha, hf3]⟩, hb⟩
    · right
      refine ⟨_, by rw [heq], rfl, rfl, by rw [heq], by rw [heq], ?_, hf1 ▸ hlt⟩
      rw [heq]; simpa using hf3

theorem step_spec (h : Int) (st : PPSState) (w : Wakeup) :
    (((gpsd_ppsmonitor_step h st w).1.last_second_used = st.last_second_used ∧
      (gpsd_ppsmonitor_step h st w).1.ppsout_last = st.ppsout_last ∧
      (gpsd_ppsmonitor_step h st w).1.ppsout_count = st.ppsout_count) ∧
     ∀ t, (gpsd_ppsmonitor_step h st w).2 ≠ Outcome.published t) ∨
    (∃ t, (gpsd_ppsmonitor_step h st w).2 = Outcome.published t ∧
        t.real.tv_sec = w.fixin_real.tv_sec + 1 ∧ t.real.tv_nsec = 0 ∧
        (gpsd_ppsmonitor_step h st w).1.last_second_used = w.fixin_real.tv_sec ∧
        (gpsd_ppsmonitor_step h st w).1.ppsout_last = t ∧
        (gpsd_ppsmonitor_step h st w).1.ppsout_count = st.ppsout_count + 1 ∧
        st.last_second_used < w.fixin_real.tv_sec) := by
  by_cases h0 : w.fixin_real.tv_sec = 0
  · left
    constructor
    · simp [gpsd_ppsmonitor_step, h0]
    · intro t; simp [gpsd_ppsmonitor_step, h0]
  · simp only [gpsd_ppsmonitor_step, if_neg h0, gpsd_ppsmonitor_body]
    exact post_skip_spec st _ w _ _ _ _ _ ⟨rfl, rfl, rfl⟩

theorem run_cons_pub (h : Int) (st : PPSState) (w : Wakeup) (ws : List Wakeup)
    (t : TimeDelta) (hp : (gpsd_ppsmonitor_step h st w).2 = Outcome.published t) :
    gpsd_ppsmonitor_run h st (w :: ws) =
      ((gpsd_ppsmonitor_run h (gpsd_ppsmonitor_step h st w).1 ws).1,
       t :: (gpsd_ppsmonitor_run h (gpsd_ppsmonitor_step h st w).1 ws).2) := by
  simp only [gpsd_ppsmonitor_run, hp]

theorem run_cons_nopub (h : Int) (st : PPSState) (w : Wakeup) (ws : List Wakeup)
    (hp : ∀ t, (gpsd_ppsmonitor_step h st w).2 ≠ Outcome.published t) :
    gpsd_ppsmonitor_run h st (w :: ws) =
      gpsd_ppsmonitor_run h (gpsd_ppsmonitor_step h st w).1 ws := by
  simp only [gpsd_ppsmonitor_run]

/-- Lemma: every `timedelta_t` ever published from state `st` carries a UTC second
strictly above `st.last_second_used + 1`, and the published seconds are
strictly increasing along the run. -/
theorem run_pub_strict (h : Int) (ws : List Wakeup) : ∀ st : PPSState,
    (∀ t ∈ (gpsd_ppsmonitor_run h st ws).2, st.last_second_used + 2 ≤ t.real.tv_sec) ∧
    List.Pairwise (fun a b => a.real.tv_sec < b.real.tv_sec)
      (gpsd_ppsmonitor_run h st ws).2 := by
  induction ws with
  | nil => intro st; simp [gpsd_ppsmonitor_run]
  | cons w ws ih =>
    intro st
    rcases step_spec h st w with ⟨⟨hl, _, _⟩, hnp⟩ | ⟨t, hpub, hsec, _, hlsu, _, _, hlt⟩
    · rw [run_cons_nopub h st w ws hnp]
      obtain ⟨ih1, ih2⟩ := ih (gpsd_ppsmonitor_step h st w).1
      exact ⟨fun t ht => by have := ih1 t ht; omega, ih2⟩
    · rw [run_cons_pub h st w ws t hpub]
      obtain ⟨ih1, ih2⟩ := ih (gpsd_ppsmonitor_step h st w).1
      constructor
      · intro u hu
        rcases List.mem_cons.mp hu with rfl | hu
        · omega
        · have := ih1 u hu; omega
      · refine List.pairwise_cons.mpr ⟨fun u hu => ?_, ih2⟩
        have := ih1 u hu; omega

theorem post_skip_of_ne (st1 : PPSState) (w : Wakeup) (c d : Int) (e : Nat)
    (kc : Option Timespec) (u : Int) (hu : u ≠ 0) :
    post_skip st1 w c d e kc u = (st1, Outcome.skipUnchanged) := by
  simp [post_skip, hu]

theorem stuck_update_snd_ne (st : PPSState) (c d : Int)
    (hcyc : ¬ (999000 < c ∧ c < 1001000)) (hu : 0 ≤ st.unchanged) :
    (stuck_update st c d st.state_last).2 ≠ 0 := by
  simp only [stuck_update, if_pos, hcyc, if_neg, if_false]
  split_ifs <;> omega

/-! Claim theorems. -/

/-- C2 (counterexample): the claim as stated is false: the input
`(2 s, −1.5·10⁹ ns)` has `|tv_nsec| < 2·10⁹`, yet `TS_NORM` leaves
`(1 s, −5·10⁸ ns)`, whose positive seconds carry a negative `tv_nsec`. -/
theorem TS_NORM_sign_rules_refuted :
    ¬ (∀ ts : Timespec, -2000000000 < ts.tv_nsec → ts.tv_nsec < 2000000000 →
        sign_rules (TS_NORM ts)) := fun h =>
  absurd (h { tv_sec := 2, tv_nsec := -1500000000 } (by decide) (by decide)) (by decide)

/-- C2 (amended): for every timespec with `|tv_nsec| < 2·10⁹` that does
not need a second borrow or carry — excluding `tv_sec ≥ 2` with
`tv_nsec < −10⁹` and `tv_sec ≤ −2` with `tv_nsec > 10⁹` — the sign rules
of §3 hold after `TS_NORM`. -/
theorem TS_NORM_sign_rules_amended (ts : Timespec)
    (h1 : -2000000000 < ts.tv_nsec) (h2 : ts.tv_nsec < 2000000000)
    (h3 : ¬ (2 ≤ ts.tv_sec ∧ ts.tv_nsec < -1000000000))
    (h4 : ¬ (ts.tv_sec ≤ -2 ∧ 1000000000 < ts.tv_nsec)) :
    sign_rules (TS_NORM ts) :=
  (TS_NORM_in_domain ts h1 h2 h3 h4).1

/-- C2 (witness): the amended theorem applied at `(0 s, 1.5·10⁹ ns)`. -/
theorem TS_NORM_sign_rules_amended_witness :
    sign_rules (TS_NORM { tv_sec := 0, tv_nsec := 1500000000 }) :=
  TS_NORM_sign_rules_amended { tv_sec := 0, tv_nsec := 1500000000 }
    (by decide) (by decide) (by decide) (by decide)

/-- C3 (counterexample): the function `TS_NORM` is not idempotent on every timespec:
it moves `(2 s, −1.1·10⁹ ns)` to `(1 s, −10⁸ ns)` and then again to
`(0 s, 9·10⁸ ns)`, and `(0 s, 2·10⁹ ns)` to `(1 s, 10⁹ ns)` and then to
`(2 s, 0 ns)`. -/
theorem TS_NORM_idempotent_refuted :
    TS_NORM (TS_NORM { tv_sec := 2, tv_nsec := -1100000000 }) ≠
      TS_NORM { tv_sec := 2, tv_nsec := -1100000000 } ∧
    TS_NORM (TS_NORM { tv_sec := 0, tv_nsec := 2000000000 }) ≠
      TS_NORM { tv_sec := 0, tv_nsec := 2000000000 } := by decide

/-- C3 (amended): the function `TS_NORM` is idempotent on every timespec with
`|tv_nsec| < 2·10⁹` that does not need a second borrow or carry —
excluding `tv_sec ≥ 2` with `tv_nsec < −10⁹` and `tv_sec ≤ −2` with
`tv_nsec > 10⁹`. -/
theorem TS_NORM_idempotent_amended (ts : Timespec)
    (h1 : -2000000000 < ts.tv_nsec) (h2 : ts.tv_nsec < 2000000000)
    (h3 : ¬ (2 ≤ ts.tv_sec ∧ ts.tv_nsec < -1000000000))
    (h4 : ¬ (ts.tv_sec ≤ -2 ∧ 1000000000 < ts.tv_nsec)) :
    TS_NORM (TS_NORM ts) = TS_NORM ts :=
  TS_NORM_fixpoint _ (TS_NORM_in_domain ts h1 h2 h3 h4)

/-- C3 (witness): the amended theorem applied at `(3 s, 999999999 ns)`. -/
theorem TS_NORM_idempotent_amended_witness :
    TS_NORM (TS_NORM { tv_sec := 3, tv_nsec := 999999999 }) =
      TS_NORM { tv_sec := 3, tv_nsec := 999999999 } :=
  TS_NORM_idempotent_amended { tv_sec := 3, tv_nsec := 999999999 }
    (by decide) (by decide) (by decide) (by decide)

/-- C6: with `cycle = 1 000 000 µs` and `duration = 500 000 µs` (a 1 Hz
square wave), the classifier accepts exactly the assert edge and rejects
the clear edge. -/
theorem classify_one_hz_square :
    (classify 1000000 500000 1).1 = true ∧
    (classify 1000000 500000 0).1 = false ∧
    ∀ e : Nat, ((classify 1000000 500000 e).1 = true ↔ e = 1) := by
  refine ⟨by decide, by decide, fun e => ?_⟩
  unfold classify
  norm_num
  split_ifs with he <;> simp_all

/-- C7 (counterexample): the claim fails at the non-negative handle 0:
line 789 tests `kernelpps_handle > 0`, so a zero handle — valid by the
`0 <= kernelpps_handle` convention used at lines 456, 682 and 815 — is
never destroyed on exit. -/
theorem monitor_exit_zero_handle_refuted :
    (0 : Int) ≤ 0 ∧ ExitEvent.destroyHandle 0 ∉ monitor_exit 0 true := by decide

/-- C7 (amended): on worker exit a strictly positive kernel PPS handle is
destroyed, and the destruction precedes the wrap hook. -/
theorem monitor_exit_destroy_before_wrap (h : Int) (hpos : 0 < h) (b : Bool) :
    monitor_exit h b =
      ExitEvent.destroyHandle h :: (if b then [ExitEvent.wrapCall] else []) := by
  simp [monitor_exit, hpos]

/-- C7 (witness): the amended theorem applied at handle 3 with a wrap
hook set. -/
theorem monitor_exit_destroy_before_wrap_witness :
    monitor_exit 3 true = [ExitEvent.destroyHandle 3, ExitEvent.wrapCall] :=
  (monitor_exit_destroy_before_wrap 3 (by decide) true).trans (by decide)

/-- C10: on Linux, whenever the caller is not root, `init_kernel_pps`
returns −1 with `kernelpps_handle` still −1 and never opens the PPS
device — also when `devicename` begins with `/dev/pps`, since the
`getuid()` check of line 239 sits before the `open` on every path. -/
theorem init_kernel_pps_requires_root (env : KppsEnv) (hu : env.uid ≠ 0) :
    (init_kernel_pps env).ret = -1 ∧
    (init_kernel_pps env).kernelpps_handle = -1 ∧
    KppsOp.openPps ∉ (init_kernel_pps env).ops := by
  unfold init_kernel_pps init_kernel_pps_tail
  split_ifs <;> simp_all

/-- C10 (witness): the theorem applied to a non-root environment whose
device name is `/dev/pps0`. -/
theorem init_kernel_pps_requires_root_witness :
    (init_kernel_pps
      { is_tty := true,
        devicename := ['/', 'd', 'e', 'v', '/', 'p', 'p', 's', '0'],
        uid := 1000, ldisc_ok := true, sysfs := [], open_ok := true,
        create_ok := true, created_handle := 5, setparams_ok := true }).ret = -1 ∧
    (init_kernel_pps
      { is_tty := true,
        devicename := ['/', 'd', 'e', 'v', '/', 'p', 'p', 's', '0'],
        uid := 1000, ldisc_ok := true, sysfs := [], open_ok := true,
        create_ok := true, created_handle := 5, setparams_ok := true }).kernelpps_handle = -1 ∧
    KppsOp.openPps ∉ (init_kernel_pps
      { is_tty := true,
        devicename := ['/', 'd', 'e', 'v', '/', 'p', 'p', 's', '0'],
        uid := 1000, ldisc_ok := true, sysfs := [], open_ok := true,
        create_ok := true, created_handle := 5, setparams_ok := true }).ops :=
  init_kernel_pps_requires_root _ (by decide)

/-- C1 (evaluation at the failing inputs): the delay check of lines
727-728 reads `(2 < delay.tv_sec) || (1 == delay.tv_sec && 100000000 >
delay.tv_nsec)`, which inverts the documented 1.1 s tolerance.  Driving
one iteration with a classifier-accepted edge shows: a fix stashed at
host clock `(100, 0)` followed by a valid edge at `(102, 5·10⁸)` — a
2.5 s delay — is published (with `ppsout_count` bumped to 1) instead of
rejected; delay `(1 s, 99 999 999 ns)` is rejected as out of range
instead of accepted; delay `(1 s, 10⁸ ns)` is published instead of
rejected. -/
theorem gpsd_ppsmonitor_stale_fix_accepted :
    (gpsd_ppsmonitor_step (-1)
        { state_last := 0, unchanged := 0,
          pulse := ({ tv_sec := 101, tv_nsec := 500000000 }, { tv_sec := 0, tv_nsec := 0 }),
          pulse_kpps := ({ tv_sec := 0, tv_nsec := 0 }, { tv_sec := 0, tv_nsec := 0 }),
          last_second_used := 0,
          ppsout_last := { real := { tv_sec := 0, tv_nsec := 0 },
                           clock := { tv_sec := 0, tv_nsec := 0 } },
          ppsout_count := 0 }
        { fixin_real := { tv_sec := 1700000000, tv_nsec := 0 },
          fixin_clock := { tv_sec := 100, tv_nsec := 0 },
          clock_ts := { tv_sec := 102, tv_nsec := 500000000 },
          state := 0, kpps_fetch := none }).2 =
      Outcome.published { real := { tv_sec := 1700000001, tv_nsec := 0 },
                          clock := { tv_sec := 102, tv_nsec := 500000000 } } ∧
    (gpsd_ppsmonitor_step (-1)
        { state_last := 0, unchanged := 0,
          pulse := ({ tv_sec := 101, tv_nsec := 500000000 }, { tv_sec := 0, tv_nsec := 0 }),
          pulse_kpps := ({ tv_sec := 0, tv_nsec := 0 }, { tv_sec := 0, tv_nsec := 0 }),
          last_second_used := 0,
          ppsout_last := { real := { tv_sec := 0, tv_nsec := 0 },
                           clock := { tv_sec := 0, tv_nsec := 0 } },
          ppsout_count := 0 }
        { fixin_real := { tv_sec := 1700000000, tv_nsec := 0 },
          fixin_clock := { tv_sec := 100, tv_nsec := 0 },
          clock_ts := { tv_sec := 102, tv_nsec := 500000000 },
          state := 0, kpps_fetch := none }).1.ppsout_count = 1 ∧
    (gpsd_ppsmonitor_step (-1)
        { state_last := 0, unchanged := 0,
          pulse := ({ tv_sec := 100, tv_nsec := 99999999 }, { tv_sec := 0, tv_nsec := 0 }),
          pulse_kpps := ({ tv_sec := 0, tv_nsec := 0 }, { tv_sec := 0, tv_nsec := 0 }),
          last_second_used := 0,
          ppsout_last := { real := { tv_sec := 0, tv_nsec := 0 },
                           clock := { tv_sec := 0, tv_nsec := 0 } },
          ppsout_count := 0 }
        { fixin_real := { tv_sec := 1700000000, tv_nsec := 0 },
          fixin_clock := { tv_sec := 100, tv_nsec := 0 },
          clock_ts := { tv_sec := 101, tv_nsec := 99999999 },
          state := 0, kpps_fetch := none }).2 = Outcome.rejectRange ∧
    (gpsd_ppsmonitor_step (-1)
        { state_last := 0, unchanged := 0,
          pulse := ({ tv_sec := 100, tv_nsec := 100000000 }, { tv_sec := 0, tv_nsec := 0 }),
          pulse_kpps := ({ tv_sec := 0, tv_nsec := 0 }, { tv_sec := 0, tv_nsec := 0 }),
          last_second_used := 0,
          ppsout_last := { real := { tv_sec := 0, tv_nsec := 0 },
                           clock := { tv_sec := 0, tv_nsec := 0 } },
          ppsout_count := 0 }
        { fixin_real := { tv_sec := 1700000000, tv_nsec := 0 },
          fixin_clock := { tv_sec := 100, tv_nsec := 0 },
          clock_ts := { tv_sec := 101, tv_nsec := 100000000 },
          state := 0, kpps_fetch := none }).2 =
      Outcome.published { real := { tv_sec := 1700000001, tv_nsec := 0 },
                          clock := { tv_sec := 101, tv_nsec := 100000000 } } := by
  decide

/-- C4: every published `timedelta_t` has `real.tv_nsec = 0` and
`real.tv_sec` equal to the copied `fixin_real.tv_sec + 1`, and is the
value stored into `ppsout_last` (lines 709-710, 753). -/
theorem ppsmonitor_published_top_of_second (h : Int) (st : PPSState) (w : Wakeup)
    (st' : PPSState) (t : TimeDelta)
    (hstep : gpsd_ppsmonitor_step h st w = (st', Outcome.published t)) :
    t.real.tv_nsec = 0 ∧ t.real.tv_sec = w.fixin_real.tv_sec + 1 ∧
    st'.ppsout_last = t := by
  have h2 : (gpsd_ppsmonitor_step h st w).2 = Outcome.published t := by rw [hstep]
  have h1 : (gpsd_ppsmonitor_step h st w).1 = st' := by rw [hstep]
  rcases step_spec h st w with ⟨_, hnp⟩ | ⟨t', hpub, hsec, hnsec, _, hpl, _, _⟩
  · exact absurd h2 (hnp t)
  · have ht : t = t' := by
      have := h2.symm.trans hpub
      injection this
    subst ht
    rw [h1] at hpl
    exact ⟨hnsec, hsec, hpl⟩

/-- C4 (witness): the theorem applied to a publishing iteration — fix
second 1 700 000 000, published instant `(1 700 000 001 s, 0 ns)`. -/
theorem ppsmonitor_published_top_of_second_witness :
    ({ real := { tv_sec := 1700000001, tv_nsec := 0 },
       clock := { tv_sec := 101, tv_nsec := 0 } } : TimeDelta).real.tv_nsec = 0 ∧
    ({ real := { tv_sec := 1700000001, tv_nsec := 0 },
       clock := { tv_sec := 101, tv_nsec := 0 } } : TimeDelta).real.tv_sec =
      ({ fixin_real := { tv_sec := 1700000000, tv_nsec := 0 },
         fixin_clock := { tv_sec := 100, tv_nsec := 500000000 },
         clock_ts := { tv_sec := 101, tv_nsec := 0 },
         state := 0, kpps_fetch := none } : Wakeup).fixin_real.tv_sec + 1 ∧
    ({ state_last := 0, unchanged := 0,
       pulse := ({ tv_sec := 101, tv_nsec := 0 }, { tv_sec := 0, tv_nsec := 0 }),
       pulse_kpps := ({ tv_sec := 0, tv_nsec := 0 }, { tv_sec := 0, tv_nsec := 0 }),
       last_second_used := 1700000000,
       ppsout_last := { real := { tv_sec := 1700000001, tv_nsec := 0 },
                        clock := { tv_sec := 101, tv_nsec := 0 } },
       ppsout_count := 1 } : PPSState).ppsout_last =
      { real := { tv_sec := 1700000001, tv_nsec := 0 },
        clock := { tv_sec := 101, tv_nsec := 0 } } :=
  ppsmonitor_published_top_of_second (-1)
    { state_last := 0, unchanged := 0,
      pulse := ({ tv_sec := 100, tv_nsec := 0 }, { tv_sec := 0, tv_nsec := 0 }),
      pulse_kpps := ({ tv_sec := 0, tv_nsec := 0 }, { tv_sec := 0, tv_nsec := 0 }),
      last_second_used := 0,
      ppsout_last := { real := { tv_sec := 0, tv_nsec := 0 },
                       clock := { tv_sec := 0, tv_nsec := 0 } },
      ppsout_count := 0 }
    { fixin_real := { tv_sec := 1700000000, tv_nsec := 0 },
      fixin_clock := { tv_sec := 100, tv_nsec := 500000000 },
      clock_ts := { tv_sec := 101, tv_nsec := 0 },
      state := 0, kpps_fetch := none }
    _ _ (by decide)

/-- C5: the dedup gate (line 660) turns a classifier-accepted edge with
`last_second_used ≥ fixin_real.tv_sec` into the rejection "this second
already handled"; no such iteration publishes; each publication sets
`last_second_used` to the copied fix second (line 736); and along any run
the published UTC seconds are pairwise distinct — at most one publication
per UTC second. -/
theorem ppsmonitor_second_dedup :
    (∀ st w cyc dur e kc, (classify cyc dur e).1 = true →
        w.fixin_real.tv_sec ≤ st.last_second_used →
        edge_decide st w cyc dur e kc =
          (st, Outcome.rejectedEdge "this second already handled\n")) ∧
    (∀ h st w t, w.fixin_real.tv_sec ≤ st.last_second_used →
        (gpsd_ppsmonitor_step h st w).2 ≠ Outcome.published t) ∧
    (∀ h st w t, (gpsd_ppsmonitor_step h st w).2 = Outcome.published t →
        (gpsd_ppsmonitor_step h st w).1.last_second_used = w.fixin_real.tv_sec) ∧
    (∀ h st ws, List.Pairwise (fun a b => a.real.tv_sec ≠ b.real.tv_sec)
        (gpsd_ppsmonitor_run h st ws).2) := by
  refine ⟨?_, ?_, ?_, ?_⟩
  · intro st w cyc dur e kc hc hle
    simp [edge_decide, hc, ge_iff_le, hle]
  · intro h st w t hle heq
    rcases step_spec h st w with ⟨_, hnp⟩ | ⟨t', _, _, _, _, _, _, hlt⟩
    · exact hnp t heq
    · omega
  · intro h st w t heq
    rcases step_spec h st w with ⟨_, hnp⟩ | ⟨t', hpub, _, _, hlsu, _, _, _⟩
    · exact absurd heq (hnp t)
    · exact hlsu
  · intro h st ws
    exact ((run_pub_strict h ws st).2).imp (fun hab => ne_of_lt hab)

/-- C5 (witness): the dedup conjuncts applied at concrete inputs with
`last_second_used = fixin_real.tv_sec = 1 700 000 000` (rejection, no
publication) and with `last_second_used = 0` (publication setting it). -/
theorem ppsmonitor_second_dedup_witness :
    edge_decide
      { state_last := 0, unchanged := 0,
        pulse := ({ tv_sec := 100, tv_nsec := 0 }, { tv_sec := 0, tv_nsec := 0 }),
        pulse_kpps := ({ tv_sec := 0, tv_nsec := 0 }, { tv_sec := 0, tv_nsec := 0 }),
        last_second_used := 1700000000,
        ppsout_last := { real := { tv_sec := 0, tv_nsec := 0 },
                         clock := { tv_sec := 0, tv_nsec := 0 } },
        ppsout_count := 0 }
      { fixin_real := { tv_sec := 1700000000, tv_nsec := 0 },
        fixin_clock := { tv_sec := 100, tv_nsec := 500000000 },
        clock_ts := { tv_sec := 101, tv_nsec := 0 },
        state := 0, kpps_fetch := none }
      1000000 0 0 none =
      ({ state_last := 0, unchanged := 0,
         pulse := ({ tv_sec := 100, tv_nsec := 0 }, { tv_sec := 0, tv_nsec := 0 }),
         pulse_kpps := ({ tv_sec := 0, tv_nsec := 0 }, { tv_sec := 0, tv_nsec := 0 }),
         last_second_used := 1700000000,
         ppsout_last := { real := { tv_sec := 0, tv_nsec := 0 },
                          clock := { tv_sec := 0, tv_nsec := 0 } },
         ppsout_count := 0 },
       Outcome.rejectedEdge "this second already handled\n") ∧
    (gpsd_ppsmonitor_step (-1)
      { state_last := 0, unchanged := 0,
        pulse := ({ tv_sec := 100, tv_nsec := 0 }, { tv_sec := 0, tv_nsec := 0 }),
        pulse_kpps := ({ tv_sec := 0, tv_nsec := 0 }, { tv_sec := 0, tv_nsec := 0 }),
        last_second_used := 1700000000,
        ppsout_last := { real := { tv_sec := 0, tv_nsec := 0 },
                         clock := { tv_sec := 0, tv_nsec := 0 } },
        ppsout_count := 0 }
      { fixin_real := { tv_sec := 1700000000, tv_nsec := 0 },
        fixin_clock := { tv_sec := 100, tv_nsec := 500000000 },
        clock_ts := { tv_sec := 101, tv_nsec := 0 },
        state := 0, kpps_fetch := none }).2 ≠
      Outcome.published { real := { tv_sec := 0, tv_nsec := 0 },
                          clock := { tv_sec := 0, tv_nsec := 0 } } ∧
    (gpsd_ppsmonitor_step (-1)
      { state_last := 0, unchanged := 0,
        pulse := ({ tv_sec := 100, tv_nsec := 0 }, { tv_sec := 0, tv_nsec := 0 }),
        pulse_kpps := ({ tv_sec := 0, tv_nsec := 0 }, { tv_sec := 0, tv_nsec := 0 }),
        last_second_used := 0,
        ppsout_last := { real := { tv_sec := 0, tv_nsec := 0 },
                         clock := { tv_sec := 0, tv_nsec := 0 } },
        ppsout_count := 0 }
      { fixin_real := { tv_sec := 1700000000, tv_nsec := 0 },
        fixin_clock := { tv_sec := 100, tv_nsec := 500000000 },
        clock_ts := { tv_sec := 101, tv_nsec := 0 },
        state := 0, kpps_fetch := none }).1.last_second_used = 1700000000 :=
  ⟨ppsmonitor_second_dedup.1 _ _ 1000000 0 0 none (by decide) (by decide),
   ppsmonitor_second_dedup.2.1 (-1) _ _ _ (by decide),
   ppsmonitor_second_dedup.2.2.1 (-1) _ _
     { real := { tv_sec := 1700000001, tv_nsec := 0 },
       clock := { tv_sec := 101, tv_nsec := 0 } } (by decide)⟩

/-- C8: when the copied in-band fix has `fixin_real.tv_sec == 0`, the
iteration is abandoned at line 444 before edge computation: the state —
`pulse[]`, `state_last`, `unchanged`, `last_second_used`, `ppsout_last`,
`ppsout_count` — is returned unchanged with no classification, hook call
or publication; consequently a run whose wakeups all lack a valid fix
publishes nothing and leaves the state untouched. -/
theorem ppsmonitor_no_fix_noop :
    (∀ h st w, w.fixin_real.tv_sec = 0 →
        gpsd_ppsmonitor_step h st w = (st, Outcome.earlyNoFix)) ∧
    (∀ h st ws, (∀ w ∈ ws, w.fixin_real.tv_sec = 0) →
        gpsd_ppsmonitor_run h st ws = (st, [])) := by
  have hstep : ∀ (h : Int) (st : PPSState) (w : Wakeup), w.fixin_real.tv_sec = 0 →
      gpsd_ppsmonitor_step h st w = (st, Outcome.earlyNoFix) := by
    intro h st w h0
    simp [gpsd_ppsmonitor_step, h0]
  refine ⟨hstep, ?_⟩
  intro h st ws
  induction ws with
  | nil => intro _; simp [gpsd_ppsmonitor_run]
  | cons w ws ih =>
    intro hall
    have hs := hstep h st w (hall w (List.mem_cons_self w ws))
    have hr : gpsd_ppsmonitor_run h st (w :: ws) = gpsd_ppsmonitor_run h st ws := by
      rw [run_cons_nopub h st w ws (by rw [hs]; intro t; simp), hs]
    rw [hr]
    exact ih (fun w' hw' => hall w' (List.mem_cons_of_mem _ hw'))

/-- C8 (witness): the theorem applied to a wakeup with
`fixin_real = (0 s, 5 ns)` and to the singleton run made of it. -/
theorem ppsmonitor_no_fix_noop_witness :
    gpsd_ppsmonitor_step (-1)
      { state_last := 0, unchanged := 0,
        pulse := ({ tv_sec := 100, tv_nsec := 0 }, { tv_sec := 0, tv_nsec := 0 }),
        pulse_kpps := ({ tv_sec := 0, tv_nsec := 0 }, { tv_sec := 0, tv_nsec := 0 }),
        last_second_used := 0,
        ppsout_last := { real := { tv_sec := 0, tv_nsec := 0 },
                         clock := { tv_sec := 0, tv_nsec := 0 } },
        ppsout_count := 0 }
      { fixin_real := { tv_sec := 0, tv_nsec := 5 },
        fixin_clock := { tv_sec := 0, tv_nsec := 0 },
        clock_ts := { tv_sec := 50, tv_nsec := 0 },
        state := 32, kpps_fetch := none } =
      ({ state_last := 0, unchanged := 0,
         pulse := ({ tv_sec := 100, tv_nsec := 0 }, { tv_sec := 0, tv_nsec := 0 }),
         pulse_kpps := ({ tv_sec := 0, tv_nsec := 0 }, { tv_sec := 0, tv_nsec := 0 }),
         last_second_used := 0,
         ppsout_last := { real := { tv_sec := 0, tv_nsec := 0 },
                          clock := { tv_sec := 0, tv_nsec := 0 } },
         ppsout_count := 0 }, Outcome.earlyNoFix) ∧
    gpsd_ppsmonitor_run (-1)
      { state_last := 0, unchanged := 0,
        pulse := ({ tv_sec := 100, tv_nsec := 0 }, { tv_sec := 0, tv_nsec := 0 }),
        pulse_kpps := ({ tv_sec := 0, tv_nsec := 0 }, { tv_sec := 0, tv_nsec := 0 }),
        last_second_used := 0,
        ppsout_last := { real := { tv_sec := 0, tv_nsec := 0 },
                         clock := { tv_sec := 0, tv_nsec := 0 } },
        ppsout_count := 0 }
      [{ fixin_real := { tv_sec := 0, tv_nsec := 5 },
         fixin_clock := { tv_sec := 0, tv_nsec := 0 },
         clock_ts := { tv_sec := 50, tv_nsec := 0 },
         state := 32, kpps_fetch := none }] =
      ({ state_last := 0, unchanged := 0,
         pulse := ({ tv_sec := 100, tv_nsec := 0 }, { tv_sec := 0, tv_nsec := 0 }),
         pulse_kpps := ({ tv_sec := 0, tv_nsec := 0 }, { tv_sec := 0, tv_nsec := 0 }),
         last_second_used := 0,
         ppsout_last := { real := { tv_sec := 0, tv_nsec := 0 },
                          clock := { tv_sec := 0, tv_nsec := 0 } },
         ppsout_count := 0 }, []) :=
  ⟨ppsmonitor_no_fix_noop.1 (-1) _ _ rfl,
   ppsmonitor_no_fix_noop.2 (-1) _ _
     (fun w' hw' => by rw [List.mem_singleton] at hw'; subst hw'; rfl)⟩

/-- C9: a wakeup with `state == state_last` and a cycle outside
`(999000, 1001000)` µs is skipped whatever the value of the `unchanged`
counter (the `continue` at line 573 fires for every nonzero counter, not
only at 10): nothing is published and `ppsout_count`, `ppsout_last` and
`last_second_used` are untouched, while `state_last` keeps its value and
`pulse[edge]` (edge 0, since the state did not increase) is still updated
with the current `clock_ts` (lines 564-566). -/
theorem ppsmonitor_stuck_state_skips (h : Int) (st : PPSState) (w : Wakeup)
    (h0 : w.fixin_real.tv_sec ≠ 0)
    (hu : 0 ≤ st.unchanged)
    (hstate : Nat.land w.state PPS_LINE_TIOC = st.state_last)
    (hcyc : ¬ (999000 < to_int32 (Int.tdiv (timespec_diff_ns w.clock_ts (pulse_get st.pulse 0)) 1000) ∧
               to_int32 (Int.tdiv (timespec_diff_ns w.clock_ts (pulse_get st.pulse 0)) 1000) < 1001000)) :
    (gpsd_ppsmonitor_step h st w).2 = Outcome.skipUnchanged ∧
    (gpsd_ppsmonitor_step h st w).1.ppsout_count = st.ppsout_count ∧
    (gpsd_ppsmonitor_step h st w).1.ppsout_last = st.ppsout_last ∧
    (gpsd_ppsmonitor_step h st w).1.last_second_used = st.last_second_used ∧
    (gpsd_ppsmonitor_step h st w).1.state_last = st.state_last ∧
    (gpsd_ppsmonitor_step h st w).1.pulse.1 = w.clock_ts := by
  simp only [gpsd_ppsmonitor_step, if_neg h0, gpsd_ppsmonitor_body, hstate,
    gt_iff_lt, lt_self_iff_false, if_false]
  rw [post_skip_of_ne _ _ _ _ _ _ _ (stuck_update_snd_ne st _ _ hcyc hu)]
  simp [pulse_set]

/-- C9 (witness): the theorem applied to a stuck wakeup — state 32 twice
in a row, cycle 5·10⁶ µs, `unchanged` counter 7. -/
theorem ppsmonitor_stuck_state_skips_witness :
    (gpsd_ppsmonitor_step (-1)
      { state_last := 32, unchanged := 7,
        pulse := ({ tv_sec := 100, tv_nsec := 0 }, { tv_sec := 0, tv_nsec := 0 }),
        pulse_kpps := ({ tv_sec := 0, tv_nsec := 0 }, { tv_sec := 0, tv_nsec := 0 }),
        last_second_used := 42,
        ppsout_last := { real := { tv_sec := 7, tv_nsec := 0 },
                         clock := { tv_sec := 8, tv_nsec := 0 } },
        ppsout_count := 3 }
      { fixin_real := { tv_sec := 1700000000, tv_nsec := 0 },
        fixin_clock := { tv_sec := 100, tv_nsec := 0 },
        clock_ts := { tv_sec := 105, tv_nsec := 0 },
        state := 32, kpps_fetch := none }).2 = Outcome.skipUnchanged ∧
    (gpsd_ppsmonitor_step (-1)
      { state_last := 32, unchanged := 7,
        pulse := ({ tv_sec := 100, tv_nsec := 0 }, { tv_sec := 0, tv_nsec := 0 }),
        pulse_kpps := ({ tv_sec := 0, tv_nsec := 0 }, { tv_sec := 0, tv_nsec := 0 }),
        last_second_used := 42,
        ppsout_last := { real := { tv_sec := 7, tv_nsec := 0 },
                         clock := { tv_sec := 8, tv_nsec := 0 } },
        ppsout_count := 3 }
      { fixin_real := { tv_sec := 1700000000, tv_nsec := 0 },
        fixin_clock := { tv_sec := 100, tv_nsec := 0 },
        clock_ts := { tv_sec := 105, tv_nsec := 0 },
        state := 32, kpps_fetch := none }).1.ppsout_count = 3 ∧
    (gpsd_ppsmonitor_step (-1)
      { state_last := 32, unchanged := 7,
        pulse := ({ tv_sec := 100, tv_nsec := 0 }, { tv_sec := 0, tv_nsec := 0 }),
        pulse_kpps := ({ tv_sec := 0, tv_nsec := 0 }, { tv_sec := 0, tv_nsec := 0 }),
        last_second_used := 42,
        ppsout_last := { real := { tv_sec := 7, tv_nsec := 0 },
                         clock := { tv_sec := 8, tv_nsec := 0 } },
        ppsout_count := 3 }
      { fixin_real := { tv_sec := 1700000000, tv_nsec := 0 },
        fixin_clock := { tv_sec := 100, tv_nsec := 0 },
        clock_ts := { tv_sec := 105, tv_nsec := 0 },
        state := 32, kpps_fetch := none }).1.pulse.1 =
      { tv_sec := 105, tv_nsec := 0 } := by
  have h := ppsmonitor_stuck_state_skips (-1)
    { state_last := 32, unchanged := 7,
      pulse := ({ tv_sec := 100, tv_nsec := 0 }, { tv_sec := 0, tv_nsec := 0 }),
      pulse_kpps := ({ tv_sec := 0, tv_nsec := 0 }, { tv_sec := 0, tv_nsec := 0 }),
      last_second_used := 42,
      ppsout_last := { real := { tv_sec := 7, tv_nsec := 0 },
                       clock := { tv_sec := 8, tv_nsec := 0 } },
      ppsout_count := 3 }
    { fixin_real := { tv_sec := 1700000000, tv_nsec := 0 },
      fixin_clock := { tv_sec := 100, tv_nsec := 0 },
      clock_ts := { tv_sec := 105, tv_nsec := 0 },
      state := 32, kpps_fetch := none }
    (by decide) (by decide) (by decide) (by decide)
  exact ⟨h.1, h.2.1, h.2.2.2.2.2⟩

end Gpsd

